import Mathlib

/-!
# Verification of the dreamhostapi DNS client

A shallow embedding of the Go package `dreamhostapi` (djotaku/dreamhostapi).
The repository contains several historical variants of the same package; the
embedding keeps them apart in namespaces:

* `Dreamhost.V2A` — the first variant in `v2/dreamhostapi.go`
  (`submitDreamhostCommand` retries recursively on HTTP 429 and discards the
  retried response; `AddDNSRecord` converts a provider `"error"` verdict into
  a `DreamhostAPIError`).
* `Dreamhost.V2B` — the second variant in `v2/dreamhostapi.go`
  (`UpdateZoneFIle` / `UpdateDNSRecord` / `GetDNSRecords`;
  `submitDreamhostCommand` retries recursively on 429 and keeps the retried
  response).
* `Dreamhost.V1B` — the second variant in `dreamhostapi.go`
  (string-typed command; on 429 it calls `WebGet` a second time and returns
  that second result).

The HTTP layer (`http.Get` + `io.ReadAll`) is modelled by a stub: a list of
pending `HttpResponse` values consumed one per call.  The `Net` state also
records every query sent (so "a command was never invoked" is expressible)
and every sleep performed (the 600-second rate-limit cool-down).

JSON decoding (`encoding/json`, an external collaborator in the source) is
modelled at the envelope level: a `Body` is either not valid JSON, or a flat
object carrying string fields together with the record array of the `data`
field.  As in Go's `encoding/json`, a field absent from the body leaves the
target field at its zero value `""` and produces no error.
-/

set_option autoImplicit false

namespace Dreamhost

/-- `DnsRecord` mirrors the Go struct of the same name (all fields are
strings in the source). -/
structure DnsRecord where
  record : String
  zone : String
  value : String
  editable : String
  zoneType : String
  comment : String
  accountId : String
deriving DecidableEq, Repr

/-- A response body as seen by the JSON decoder: either not valid JSON, or a
flat object with string `fields` (such as `result` and `data`) plus the
list of records carried by a `data` array (used when decoding into
`DnsRecords`). -/
inductive Body where
  | malformed : Body
  | flat (fields : List (String × String)) (records : List DnsRecord) : Body
deriving DecidableEq, Repr

/-- The Go `commandResult` struct: `Data string; Result string`. -/
structure CommandResult where
  data : String
  result : String
deriving DecidableEq, Repr

/-- The zero value of `commandResult` (`var updateResult commandResult`). -/
def emptyCommandResult : CommandResult := { data := "", result := "" }

/-- The Go `DnsRecords` struct of the V2B variant:
`Data []DnsRecord; Result string`. -/
structure DnsRecords where
  data : List DnsRecord
  result : String
deriving DecidableEq, Repr

/-- The zero value of `DnsRecords` (`var emptyRecords DnsRecords`). -/
def emptyDnsRecords : DnsRecords := { data := [], result := "" }

/-- First value stored under `key` in a flat JSON object, or the Go zero
value `""` when the key is absent — mirroring `encoding/json`, which leaves
a missing field at its zero value without reporting an error. -/
def lookupField (fields : List (String × String)) (key : String) : String :=
  match fields.find? (fun p => p.1 == key) with
  | some p => p.2
  | none => ""

/-- Go error values, tagged by their dynamic type: errors produced by
`net/http` / `io.ReadAll`, errors produced by `json.Unmarshal`, and the
package's own `DreamhostAPIError` (a renamed string holding the provider's
`data` token). -/
inductive GoError where
  | transport (msg : String)
  | decode (msg : String)
  | api (data : String)
deriving DecidableEq, Repr

/-- `json.Unmarshal([]byte(body), &result)` with `result : commandResult`:
a body that is not valid JSON errors; a flat object fills each field from
the body, leaving absent fields at `""`. -/
def unmarshalCommandResult : Body → Except String CommandResult
  | Body.malformed => Except.error "invalid character in response body"
  | Body.flat fields _ =>
    Except.ok { data := lookupField fields "data", result := lookupField fields "result" }

/-- `json.Unmarshal([]byte(body), &dnsRecordList)` with
`dnsRecordList : DnsRecords`. -/
def unmarshalDnsRecords : Body → Except String DnsRecords
  | Body.malformed => Except.error "invalid character in response body"
  | Body.flat fields records =>
    Except.ok { data := records, result := lookupField fields "result" }

/-- A query string at the `url.Values` level: a multimap from parameter
names to values (the percent-encoding performed by `Encode()` is a
serialization detail not modelled). -/
abbrev Query := List (String × String)

/-- One stubbed HTTP exchange: the error returned by `http.Get` (if any),
the error returned by `io.ReadAll` (if any), and the status code and body
of the response. -/
structure HttpResponse where
  getErr : Option String
  readErr : Option String
  status : Nat
  body : Body
deriving DecidableEq, Repr

/-- A stub response that succeeds at the transport level. -/
def okResponse (status : Nat) (body : Body) : HttpResponse :=
  { getErr := none, readErr := none, status := status, body := body }

/-- The state threaded through the embedding: the stub responses not yet
consumed, the queries sent so far (in order), and the sleeps performed so
far (in seconds). -/
structure Net where
  pending : List HttpResponse
  sent : List Query
  slept : List Nat
deriving DecidableEq, Repr

/-- What one `webGet` call returns: body, HTTP status code, error. -/
structure WebGetResult where
  body : Body
  status : Nat
  err : Option GoError
deriving DecidableEq, Repr

/-- The Go `webGet` / `WebGet` of the V2A, V2B and V1B variants (their code
is identical): perform `http.Get`, read the body, log — but only log — a
status code above 299, and return `(body, statusCode, err)`.  On a
`http.Get` error it returns the fixed string `"Error accessing URL"` (not
valid JSON, hence `Body.malformed`) with status 0; on a read error the
fixed string `"Error reading response"` likewise.  The stub consumes the
head of `pending`; an exhausted stub behaves as a connection failure. -/
def webGet (query : Query) (net : Net) : WebGetResult × Net :=
  match net.pending with
  | [] =>
    ({ body := Body.malformed, status := 0,
       err := some (GoError.transport "connection refused") },
     { net with sent := net.sent ++ [query] })
  | r :: rest =>
    match r.getErr with
    | some e =>
      ({ body := Body.malformed, status := 0, err := some (GoError.transport e) },
       { net with pending := rest, sent := net.sent ++ [query] })
    | none =>
      match r.readErr with
      | some e =>
        ({ body := Body.malformed, status := 0, err := some (GoError.transport e) },
         { net with pending := rest, sent := net.sent ++ [query] })
      | none =>
        ({ body := r.body, status := r.status, err := none },
         { net with pending := rest, sent := net.sent ++ [query] })

/-- A successful `webGet` call consumed one pending stub response. -/
theorem webGet_consumes (query : Query) (net : Net)
    (he : (webGet query net).1.err = none) :
    (webGet query net).2.pending.length < net.pending.length := by
  obtain ⟨pending, sent, slept⟩ := net
  cases pending with
  | nil => simp [webGet] at he
  | cons r rest =>
    cases hg : r.getErr with
    | some e => simp [webGet, hg] at he
    | none =>
      cases hr : r.readErr with
      | some e => simp [webGet, hg, hr] at he
      | none => simp [webGet, hg, hr]

/-- The query a `webGet` call sends is appended to the trace. -/
theorem webGet_sent (query : Query) (net : Net) :
    (webGet query net).2.sent = net.sent ++ [query] := by
  obtain ⟨pending, sent, slept⟩ := net
  cases pending with
  | nil => rfl
  | cons r rest =>
    cases hg : r.getErr with
    | some e => simp [webGet, hg]
    | none =>
      cases hr : r.readErr with
      | some e => simp [webGet, hg, hr]
      | none => simp [webGet, hg, hr]

/-- `queryParameters.Set("key", apiKey)`, then one `Add` per entry of the
command map, then `queryParameters.Add("format", "json")` — the query as a
multimap. -/
def buildQuery (command : Query) (apiKey : String) : Query :=
  ("key", apiKey) :: (command ++ [("format", "json")])

/-- Query construction of the V1B variant, whose command is a single string
added under the key `"cmd"` (so any `&`-separated parameters inside it are
percent-encoded by `Encode()` into that one value, not split into separate
query keys). -/
def buildQueryStr (command : String) (apiKey : String) : Query :=
  [("key", apiKey), ("cmd", command), ("format", "json")]

namespace V2A

/-- `submitDreamhostCommand` of the first `v2` variant: build the query,
call `webGet`; on an error return that body and error; on HTTP status 429
sleep 600 seconds and call itself recursively — but the source discards the
retried response (`submitDreamhostCommand(command, apiKey)` with no
assignment) and afterwards returns the ORIGINAL response with the original
(nil) error. -/
def submitDreamhostCommand (command : Query) (apiKey : String) (net : Net) :
    (Body × Option GoError) × Net :=
  let out := webGet (buildQuery command apiKey) net
  if hErr : out.1.err.isSome then
    ((out.1.body, out.1.err), out.2)
  else if out.1.status = 429 then
    ((out.1.body, none),
      (submitDreamhostCommand command apiKey { out.2 with slept := out.2.slept ++ [600] }).2)
  else
    ((out.1.body, none), out.2)
termination_by net.pending.length
decreasing_by
  exact webGet_consumes (buildQuery command apiKey) net
    (Option.not_isSome_iff_eq_none.mp hErr)

end V2A

namespace V2B

/-- `submitDreamhostCommand` of the second `v2` variant: as in `V2A`, but
the recursive retry's response and error are assigned back
(`dreamhostResponse, err = submitDreamhostCommand(command, apiKey)`) and
returned.  The recursion is unbounded while the stub keeps answering
429. -/
def submitDreamhostCommand (command : Query) (apiKey : String) (net : Net) :
    (Body × Option GoError) × Net :=
  let out := webGet (buildQuery command apiKey) net
  if hErr : out.1.err.isSome then
    ((out.1.body, out.1.err), out.2)
  else if out.1.status = 429 then
    submitDreamhostCommand command apiKey { out.2 with slept := out.2.slept ++ [600] }
  else
    ((out.1.body, none), out.2)
termination_by net.pending.length
decreasing_by
  exact webGet_consumes (buildQuery command apiKey) net
    (Option.not_isSome_iff_eq_none.mp hErr)

end V2B

namespace V1B

/-- `submitDreamhostCommand` of the second variant of `dreamhostapi.go`:
the command is a single string placed under the `"cmd"` key.  On status 429
it sleeps 600 seconds and calls `WebGet` on the identical URL a second
time, returning that second call's body and error; there is no further
retry. -/
def submitDreamhostCommand (command : String) (apiKey : String) (net : Net) :
    (Body × Option GoError) × Net :=
  let out := webGet (buildQueryStr command apiKey) net
  if out.1.err.isSome then
    ((out.1.body, out.1.err), out.2)
  else if out.1.status = 429 then
    let out2 := webGet (buildQueryStr command apiKey) { out.2 with slept := out.2.slept ++ [600] }
    ((out2.1.body, out2.1.err), out2.2)
  else
    ((out.1.body, none), out.2)

end V1B

namespace V2A

/-- The command map built by `AddDNSRecord`:
`{"cmd": "dns-add_record", "record": domain, "type": "A", "value": newIPAddress}`. -/
def addRecordCommand (domain newIPAddress : String) : Query :=
  [("cmd", "dns-add_record"), ("record", domain), ("type", "A"), ("value", newIPAddress)]

/-- The command map built by `DeleteDNSRecord`. -/
def deleteRecordCommand (domain newIPAddress : String) : Query :=
  [("cmd", "dns-remove_record"), ("record", domain), ("type", "A"), ("value", newIPAddress)]

/-- `AddDNSRecord` of the first `v2` variant: submit the add command, fail
on a submit error, fail on a `json.Unmarshal` error; when the decoded
`result` field is `"error"` set `err = DreamhostAPIError(result.Data)` and
return `(result.Result, err)` — the provider's rejection travels as a Go
error alongside the verdict string. -/
def AddDNSRecord (domain newIPAddress apiKey : String) (net : Net) :
    (String × Option GoError) × Net :=
  match submitDreamhostCommand (addRecordCommand domain newIPAddress) apiKey net with
  | ((response, err), net1) =>
    match err with
    | some e => (("", some e), net1)
    | none =>
      match unmarshalCommandResult response with
      | Except.error e => (("", some (GoError.decode e)), net1)
      | Except.ok result =>
        if result.result = "error" then
          ((result.result, some (GoError.api result.data)), net1)
        else
          ((result.result, none), net1)

/-- `DeleteDNSRecord` of the first `v2` variant.  The source sets
`err = DreamhostAPIError(result.Data)` when the verdict is `"error"` but
then executes `return result.Result, jsonErr` — and `jsonErr` is nil on
this path, so the verdict is returned without an error. -/
def DeleteDNSRecord (domain newIPAddress apiKey : String) (net : Net) :
    (String × Option GoError) × Net :=
  match submitDreamhostCommand (deleteRecordCommand domain newIPAddress) apiKey net with
  | ((response, err), net1) =>
    match err with
    | some e => (("", some e), net1)
    | none =>
      match unmarshalCommandResult response with
      | Except.error e => (("", some (GoError.decode e)), net1)
      | Except.ok result =>
        ((result.result, none), net1)

end V2A

namespace V2B

/-- The `commandOptions` map built by `UpdateZoneFIle`: the switch on the
command name, followed by `delete(commandOptions, "comment")` when
`comment` is the empty string.  An unrecognized command leaves the map
nil. -/
def zoneFileOptions (command domain ipAddress comment : String) : Query :=
  let commandOptions : Query :=
    if command = "add" then
      [("cmd", "dns-add_record"), ("record", domain), ("type", "A"),
       ("value", ipAddress), ("comment", comment)]
    else if command = "del" then
      [("cmd", "dns-remove_record"), ("record", domain), ("type", "A"),
       ("value", ipAddress), ("comment", comment)]
    else []
  if comment = "" then commandOptions.filter (fun p => p.1 != "comment")
  else commandOptions

/-- `UpdateZoneFIle` (sic) of the second `v2` variant: build the command
options, submit them, and decode the response into a `commandResult`.
On a submit or decode error the zero-valued `updateResult` is returned
together with the error; otherwise the decoded result is returned with a
nil error — including when its `result` field is `"error"`. -/
def UpdateZoneFIle (command domain ipAddress apiKey comment : String) (net : Net) :
    (CommandResult × Option GoError) × Net :=
  match submitDreamhostCommand (zoneFileOptions command domain ipAddress comment) apiKey net with
  | ((response, err), net1) =>
    match err with
    | some e => ((emptyCommandResult, some e), net1)
    | none =>
      match unmarshalCommandResult response with
      | Except.error e => ((emptyCommandResult, some (GoError.decode e)), net1)
      | Except.ok updateResult => ((updateResult, none), net1)

/-- `UpdateDNSRecord` of the second `v2` variant: add the new address; on an
error return two zero-valued results and the error; when the add verdict is
not `"success"` return the add result alone; otherwise delete the old
address and return both results along with the delete call's error. -/
def UpdateDNSRecord (domain currentIP newIPAddress apiKey comment : String) (net : Net) :
    (CommandResult × CommandResult × Option GoError) × Net :=
  match UpdateZoneFIle "add" domain newIPAddress apiKey comment net with
  | ((resultOfAdd, err), net1) =>
    match err with
    | some e => ((emptyCommandResult, emptyCommandResult, some e), net1)
    | none =>
      if resultOfAdd.result ≠ "success" then
        ((resultOfAdd, emptyCommandResult, none), net1)
      else
        match UpdateZoneFIle "del" domain currentIP apiKey comment net1 with
        | ((resultOfDelete, delErr), net2) =>
          ((resultOfAdd, resultOfDelete, delErr), net2)

/-- The command map of `GetDNSRecords`. -/
def listRecordsCommand : Query := [("cmd", "dns-list_records")]

/-- `GetDNSRecords` of the second `v2` variant: on a submit or decode error
return the empty records and the error; when the decoded `result` field is
not `"success"` return the empty records with the (nil) error; otherwise
return the decoded records. -/
def GetDNSRecords (apiKey : String) (net : Net) :
    (DnsRecords × Option GoError) × Net :=
  match submitDreamhostCommand listRecordsCommand apiKey net with
  | ((cmdResult, err), net1) =>
    match err with
    | some e => ((emptyDnsRecords, some e), net1)
    | none =>
      match unmarshalDnsRecords cmdResult with
      | Except.error e => ((emptyDnsRecords, some (GoError.decode e)), net1)
      | Except.ok dnsRecordList =>
        if dnsRecordList.result ≠ "success" then
          ((emptyDnsRecords, none), net1)
        else
          ((dnsRecordList, none), net1)

end V2B

/-! ## General lemmas about the transport and engine -/

/-- `webGet` on a stub response with no transport-level errors returns its
body and status with a nil error and consumes it. -/
theorem webGet_ok (query : Query) (r : HttpResponse) (rest : List HttpResponse)
    (sent : List Query) (slept : List Nat)
    (h1 : r.getErr = none) (h2 : r.readErr = none) :
    webGet query ⟨r :: rest, sent, slept⟩
      = ({ body := r.body, status := r.status, err := none },
         ⟨rest, sent ++ [query], slept⟩) := by
  simp [webGet, h1, h2]

/-- Every query the V2B transport sends is either inherited from the prior
trace or is the query built from its own command and key — retries resend
the identical request. -/
theorem V2B_submit_sent (command : Query) (apiKey : String) (net : Net) :
    ∀ q ∈ (V2B.submitDreamhostCommand command apiKey net).2.sent,
      q ∈ net.sent ∨ q = buildQuery command apiKey := by
  induction net using V2B.submitDreamhostCommand.induct command apiKey with
  | case1 net out hErr =>
    rw [V2B.submitDreamhostCommand.eq_def]
    rw [dif_pos hErr]
    intro q hq
    simp [webGet_sent] at hq
    exact hq
  | case2 net out hErr h429 ih =>
    rw [V2B.submitDreamhostCommand.eq_def]
    rw [dif_neg hErr, if_pos h429]
    intro q hq
    rcases ih q hq with h | h
    · have h2 : q ∈ (webGet (buildQuery command apiKey) net).2.sent := h
      rw [webGet_sent] at h2
      simp at h2
      exact h2
    · exact Or.inr h
  | case3 net out hErr h429 =>
    rw [V2B.submitDreamhostCommand.eq_def]
    rw [dif_neg hErr, if_neg h429]
    intro q hq
    simp [webGet_sent] at hq
    exact hq

/-- `UpdateZoneFIle` leaves the network state exactly as its submit call
left it: the engine itself sends nothing further. -/
theorem V2B_UpdateZoneFIle_net (command domain ipAddress apiKey comment : String) (net : Net) :
    (V2B.UpdateZoneFIle command domain ipAddress apiKey comment net).2
      = (V2B.submitDreamhostCommand
          (V2B.zoneFileOptions command domain ipAddress comment) apiKey net).2 := by
  rcases h : V2B.submitDreamhostCommand
      (V2B.zoneFileOptions command domain ipAddress comment) apiKey net
    with ⟨⟨response, err⟩, net1⟩
  cases err with
  | some e => simp [V2B.UpdateZoneFIle, h]
  | none =>
    cases hu : unmarshalCommandResult response with
    | error e => simp [V2B.UpdateZoneFIle, h, hu]
    | ok r => simp [V2B.UpdateZoneFIle, h, hu]

/-- Every query sent during an `UpdateZoneFIle` call is inherited or is the
query of that call's own command options. -/
theorem V2B_UpdateZoneFIle_sent (command domain ipAddress apiKey comment : String) (net : Net) :
    ∀ q ∈ (V2B.UpdateZoneFIle command domain ipAddress apiKey comment net).2.sent,
      q ∈ net.sent
        ∨ q = buildQuery (V2B.zoneFileOptions command domain ipAddress comment) apiKey := by
  rw [V2B_UpdateZoneFIle_net]
  exact V2B_submit_sent _ _ _

/-- When `UpdateZoneFIle` reports an error, the outcome it returns is the
zero-valued `commandResult`. -/
theorem V2B_UpdateZoneFIle_err_empty {command domain ipAddress apiKey comment : String}
    {net : Net} {e : GoError}
    (h : (V2B.UpdateZoneFIle command domain ipAddress apiKey comment net).1.2 = some e) :
    (V2B.UpdateZoneFIle command domain ipAddress apiKey comment net).1.1
      = emptyCommandResult := by
  rcases hs : V2B.submitDreamhostCommand
      (V2B.zoneFileOptions command domain ipAddress comment) apiKey net
    with ⟨⟨response, err⟩, net1⟩
  cases err with
  | some e2 => simp [V2B.UpdateZoneFIle, hs]
  | none =>
    cases hu : unmarshalCommandResult response with
    | error e2 => simp [V2B.UpdateZoneFIle, hs, hu]
    | ok r =>
      rw [V2B.UpdateZoneFIle, hs] at h
      simp [hu] at h

/-- The query sent for the add command never carries the remove command
name: its only `"cmd"` entry is `"dns-add_record"`. -/
theorem remove_not_mem_add_query (domain ipAddress apiKey comment : String) :
    ("cmd", "dns-remove_record") ∉
      buildQuery (V2B.zoneFileOptions "add" domain ipAddress comment) apiKey := by
  intro hmem
  by_cases hc : comment = "" <;>
    simp [buildQuery, V2B.zoneFileOptions, hc] at hmem

/-! ## The claims -/

/-- Claim C1: in every `UpdateDNSRecord` (replace) call, the remove command
is attempted only when the add command's verdict is `"success"`: any sent
query carrying the remove command name implies the returned add outcome has
result `"success"`, and when the add decodes to a non-success verdict with
no error the call returns only the add outcome — no removal, no error. -/
theorem C1_remove_only_when_add_success
    (domain currentIP newIPAddress apiKey comment : String) (pending : List HttpResponse) :
    (∀ q ∈ (V2B.UpdateDNSRecord domain currentIP newIPAddress apiKey comment
        ⟨pending, [], []⟩).2.sent,
      ("cmd", "dns-remove_record") ∈ q →
        (V2B.UpdateDNSRecord domain currentIP newIPAddress apiKey comment
          ⟨pending, [], []⟩).1.1.result = "success")
    ∧ (∀ r, (V2B.UpdateZoneFIle "add" domain newIPAddress apiKey comment
          ⟨pending, [], []⟩).1 = (r, none) →
        r.result ≠ "success" →
        V2B.UpdateDNSRecord domain currentIP newIPAddress apiKey comment ⟨pending, [], []⟩
          = ((r, emptyCommandResult, none),
            (V2B.UpdateZoneFIle "add" domain newIPAddress apiKey comment
              ⟨pending, [], []⟩).2)) := by
  have hsent := V2B_UpdateZoneFIle_sent "add" domain newIPAddress apiKey comment ⟨pending, [], []⟩
  rcases hA : V2B.UpdateZoneFIle "add" domain newIPAddress apiKey comment ⟨pending, [], []⟩
    with ⟨⟨rAdd, errA⟩, net1⟩
  rw [hA] at hsent
  simp only [List.not_mem_nil, false_or] at hsent
  have hNoRem : ∀ q ∈ net1.sent, ("cmd", "dns-remove_record") ∉ q := by
    intro q hq hmem
    exact remove_not_mem_add_query domain newIPAddress apiKey comment (hsent q hq ▸ hmem)
  cases errA with
  | some e =>
    have hU : V2B.UpdateDNSRecord domain currentIP newIPAddress apiKey comment ⟨pending, [], []⟩
        = ((emptyCommandResult, emptyCommandResult, some e), net1) := by
      simp [V2B.UpdateDNSRecord, hA]
    constructor
    · intro q hq hmem
      rw [hU] at hq
      exact absurd hmem (hNoRem q hq)
    · intro r hr
      simp at hr
  | none =>
    by_cases hres : rAdd.result = "success"
    · rcases hD : V2B.UpdateZoneFIle "del" domain currentIP apiKey comment net1
        with ⟨⟨rDel, errD⟩, net2⟩
      have hU : V2B.UpdateDNSRecord domain currentIP newIPAddress apiKey comment ⟨pending, [], []⟩
          = ((rAdd, rDel, errD), net2) := by
        simp [V2B.UpdateDNSRecord, hA, hres, hD]
      constructor
      · intro q hq hmem
        rw [hU]
        exact hres
      · intro r hr hne
        simp at hr
        exact absurd (hr ▸ hres) hne
    · have hU : V2B.UpdateDNSRecord domain currentIP newIPAddress apiKey comment ⟨pending, [], []⟩
          = ((rAdd, emptyCommandResult, none), net1) := by
        simp [V2B.UpdateDNSRecord, hA, hres]
      constructor
      · intro q hq hmem
        rw [hU] at hq
        exact absurd hmem (hNoRem q hq)
      · intro r hr hne
        simp at hr
        simp [hU, hr]

/-- Concrete instance of C1: a rejected add (`result = "error"`) makes the
replace call return the add outcome alone, with no removal and no error. -/
theorem C1_witness :
    V2B.UpdateDNSRecord "example.com" "1.1.1.1" "2.2.2.2" "k" ""
      ⟨[okResponse 200 (Body.flat [("result", "error"), ("data", "duplicate")] [])], [], []⟩
      = (({ data := "duplicate", result := "error" }, emptyCommandResult, none),
         (V2B.UpdateZoneFIle "add" "example.com" "2.2.2.2" "k" ""
           ⟨[okResponse 200 (Body.flat [("result", "error"), ("data", "duplicate")] [])],
            [], []⟩).2) :=
  (C1_remove_only_when_add_success "example.com" "1.1.1.1" "2.2.2.2" "k" ""
      [okResponse 200 (Body.flat [("result", "error"), ("data", "duplicate")] [])]).2
    { data := "duplicate", result := "error" }
    (by simp [V2B.UpdateZoneFIle, V2B.submitDreamhostCommand, V2B.zoneFileOptions, webGet,
      buildQuery, unmarshalCommandResult, lookupField, okResponse])
    (by decide)

/-- Claim C4: when the add step of a replace call fails with a transport or
decode error, the error is propagated, the returned result has neither
outcome set (both zero-valued), and no remove command was ever sent. -/
theorem C4_add_error_propagates_no_remove
    (domain currentIP newIPAddress apiKey comment : String) (pending : List HttpResponse)
    (e : GoError)
    (h : (V2B.UpdateZoneFIle "add" domain newIPAddress apiKey comment
      ⟨pending, [], []⟩).1.2 = some e) :
    V2B.UpdateDNSRecord domain currentIP newIPAddress apiKey comment ⟨pending, [], []⟩
      = ((emptyCommandResult, emptyCommandResult, some e),
         (V2B.UpdateZoneFIle "add" domain newIPAddress apiKey comment ⟨pending, [], []⟩).2)
    ∧ ∀ q ∈ (V2B.UpdateZoneFIle "add" domain newIPAddress apiKey comment
        ⟨pending, [], []⟩).2.sent,
      ("cmd", "dns-remove_record") ∉ q := by
  have hsent := V2B_UpdateZoneFIle_sent "add" domain newIPAddress apiKey comment ⟨pending, [], []⟩
  rcases hA : V2B.UpdateZoneFIle "add" domain newIPAddress apiKey comment ⟨pending, [], []⟩
    with ⟨⟨rAdd, errA⟩, net1⟩
  rw [hA] at hsent h
  simp only [List.not_mem_nil, false_or] at hsent
  simp only at h
  constructor
  · rw [h]
    simp [V2B.UpdateDNSRecord, hA, h]
  · intro q hq hmem
    exact remove_not_mem_add_query domain newIPAddress apiKey comment (hsent q hq ▸ hmem)

/-- Concrete instance of C4: an exhausted transport (connection failure) on
the add step yields the propagated transport error, two zero outcomes, and
a trace without any remove command. -/
theorem C4_witness :
    V2B.UpdateDNSRecord "example.com" "1.1.1.1" "2.2.2.2" "k" "" ⟨[], [], []⟩
      = ((emptyCommandResult, emptyCommandResult,
          some (GoError.transport "connection refused")),
         (V2B.UpdateZoneFIle "add" "example.com" "2.2.2.2" "k" "" ⟨[], [], []⟩).2)
    ∧ ∀ q ∈ (V2B.UpdateZoneFIle "add" "example.com" "2.2.2.2" "k" "" ⟨[], [], []⟩).2.sent,
      ("cmd", "dns-remove_record") ∉ q :=
  C4_add_error_propagates_no_remove "example.com" "1.1.1.1" "2.2.2.2" "k" "" []
    (GoError.transport "connection refused")
    (by simp [V2B.UpdateZoneFIle, V2B.submitDreamhostCommand, V2B.zoneFileOptions, webGet,
      buildQuery])

/-- Claim C5: when the add step of a replace call succeeds with verdict
`"success"` and the remove step then fails with a transport or decode
error, the error is propagated and the returned partial result keeps the
successful add outcome while the remove outcome is the zero value. -/
theorem C5_remove_error_keeps_add_outcome
    (domain currentIP newIPAddress apiKey comment : String) (pending : List HttpResponse)
    (rAdd : CommandResult) (e : GoError)
    (hA : (V2B.UpdateZoneFIle "add" domain newIPAddress apiKey comment
      ⟨pending, [], []⟩).1 = (rAdd, none))
    (hS : rAdd.result = "success")
    (hD : (V2B.UpdateZoneFIle "del" domain currentIP apiKey comment
        (V2B.UpdateZoneFIle "add" domain newIPAddress apiKey comment ⟨pending, [], []⟩).2).1.2
      = some e) :
    V2B.UpdateDNSRecord domain currentIP newIPAddress apiKey comment ⟨pending, [], []⟩
      = ((rAdd, emptyCommandResult, some e),
         (V2B.UpdateZoneFIle "del" domain currentIP apiKey comment
           (V2B.UpdateZoneFIle "add" domain newIPAddress apiKey comment
             ⟨pending, [], []⟩).2).2)
    ∧ rAdd.result = "success" := by
  have hDempty := V2B_UpdateZoneFIle_err_empty hD
  rcases hAeq : V2B.UpdateZoneFIle "add" domain newIPAddress apiKey comment ⟨pending, [], []⟩
    with ⟨⟨rAdd2, errA⟩, net1⟩
  rw [hAeq] at hA hD hDempty
  simp only at hA hD hDempty
  obtain ⟨h1, h2⟩ := Prod.mk.injEq .. ▸ hA
  rcases hDeq : V2B.UpdateZoneFIle "del" domain currentIP apiKey comment net1
    with ⟨⟨rDel, errD⟩, net2⟩
  rw [hDeq] at hD hDempty
  simp only at hD hDempty
  subst h1 h2 hD hDempty
  refine ⟨?_, hS⟩
  simp [V2B.UpdateDNSRecord, hAeq, hS, hDeq]

/-- Concrete instance of C5: the add succeeds, then the stub is exhausted
so the remove fails at the transport layer; the replace call keeps the
successful add outcome, reports the zero remove outcome and propagates the
error. -/
theorem C5_witness :
    V2B.UpdateDNSRecord "example.com" "1.1.1.1" "2.2.2.2" "k" ""
      ⟨[okResponse 200 (Body.flat [("result", "success"), ("data", "record_added")] [])],
       [], []⟩
      = (({ data := "record_added", result := "success" }, emptyCommandResult,
          some (GoError.transport "connection refused")),
         (V2B.UpdateZoneFIle "del" "example.com" "1.1.1.1" "k" ""
           (V2B.UpdateZoneFIle "add" "example.com" "2.2.2.2" "k" ""
             ⟨[okResponse 200 (Body.flat [("result", "success"), ("data", "record_added")] [])],
              [], []⟩).2).2)
    ∧ ({ data := "record_added", result := "success" } : CommandResult).result = "success" :=
  C5_remove_error_keeps_add_outcome "example.com" "1.1.1.1" "2.2.2.2" "k" ""
    [okResponse 200 (Body.flat [("result", "success"), ("data", "record_added")] [])]
    { data := "record_added", result := "success" }
    (GoError.transport "connection refused")
    (by simp [V2B.UpdateZoneFIle, V2B.submitDreamhostCommand, V2B.zoneFileOptions, webGet,
      buildQuery, unmarshalCommandResult, lookupField, okResponse])
    (by decide)
    (by simp [V2B.UpdateZoneFIle, V2B.submitDreamhostCommand, V2B.zoneFileOptions, webGet,
      buildQuery, unmarshalCommandResult, lookupField, okResponse])

/-- Claim C2 fails on the code: `AddDNSRecord` converts a provider-level
`"error"` verdict into a `DreamhostAPIError`.  Against a duplicate-rejecting
stub, the first add returns `("success", nil)` but the second returns
`("error", DreamhostAPIError "record_already_exists")` — a non-nil error,
where the claim requires both calls to be surfaced without error. -/
theorem C2_counterexample :
    (V2A.AddDNSRecord "example.com" "2.2.2.2" "k"
      ⟨[okResponse 200 (Body.flat [("result", "success"), ("data", "record_added")] []),
        okResponse 200 (Body.flat [("result", "error"), ("data", "record_already_exists")] [])],
       [], []⟩).1 = ("success", none)
    ∧ (V2A.AddDNSRecord "example.com" "2.2.2.2" "k"
        (V2A.AddDNSRecord "example.com" "2.2.2.2" "k"
          ⟨[okResponse 200 (Body.flat [("result", "success"), ("data", "record_added")] []),
            okResponse 200 (Body.flat [("result", "error"), ("data", "record_already_exists")] [])],
           [], []⟩).2).1
      = ("error", some (GoError.api "record_already_exists")) := by
  constructor <;>
    simp [V2A.AddDNSRecord, V2A.submitDreamhostCommand, V2A.addRecordCommand, webGet,
      buildQuery, unmarshalCommandResult, lookupField, okResponse]

/-- Claim C2 amended: when transport and decode succeed, `AddDNSRecord`
returns the decoded verdict string; a `"success"` verdict carries a nil
error, but an `"error"` verdict is accompanied by a `DreamhostAPIError`
holding the provider's `data` token. -/
theorem C2_amended_failure_verdict_carries_api_error
    (domain newIPAddress apiKey : String) (net net1 : Net) (b : Body) (r : CommandResult)
    (hs : V2A.submitDreamhostCommand (V2A.addRecordCommand domain newIPAddress) apiKey net
      = ((b, none), net1))
    (hu : unmarshalCommandResult b = Except.ok r) :
    V2A.AddDNSRecord domain newIPAddress apiKey net
      = ((r.result, if r.result = "error" then some (GoError.api r.data) else none), net1) := by
  by_cases hr : r.result = "error" <;>
    simp [V2A.AddDNSRecord, hs, hu, hr]

/-- Concrete instance of the amended C2: a rejected add returns the
verdict `"error"` together with the `DreamhostAPIError`. -/
theorem C2_witness :
    V2A.AddDNSRecord "example.com" "2.2.2.2" "k"
      ⟨[okResponse 200 (Body.flat [("result", "error"), ("data", "dup")] [])], [], []⟩
      = ((("error" : String),
          if ("error" : String) = "error" then some (GoError.api "dup") else none),
         ⟨[], [buildQuery (V2A.addRecordCommand "example.com" "2.2.2.2") "k"], []⟩) :=
  C2_amended_failure_verdict_carries_api_error "example.com" "2.2.2.2" "k"
    ⟨[okResponse 200 (Body.flat [("result", "error"), ("data", "dup")] [])], [], []⟩
    ⟨[], [buildQuery (V2A.addRecordCommand "example.com" "2.2.2.2") "k"], []⟩
    (Body.flat [("result", "error"), ("data", "dup")] [])
    { data := "dup", result := "error" }
    (by simp [V2A.submitDreamhostCommand, webGet, buildQuery, okResponse])
    (by simp [unmarshalCommandResult, lookupField])

/-- Claim C3 evaluated at the failing input.  With a stub answering 429
then 200, the `v2` first-variant `submitDreamhostCommand` (which recurses
and discards the retried response) returns the FIRST (429) body, not the
retry's; with a stub answering 429 twice it issues a THIRD request.  The
`dreamhostapi.go` variant (`V1B`) implements the claimed behavior: it
returns the second response after exactly one 600-second cool-down. -/
theorem C3_rate_limit_retry_behavior :
    (V2A.submitDreamhostCommand [("cmd", "dns-list_records")] "k"
      ⟨[okResponse 429 (Body.flat [("data", "slow down")] []),
        okResponse 200 (Body.flat [("result", "success"), ("data", "ok")] [])], [], []⟩).1
      = (Body.flat [("data", "slow down")] [], none)
    ∧ (V2A.submitDreamhostCommand [("cmd", "dns-list_records")] "k"
        ⟨[okResponse 429 (Body.flat [("data", "slow down")] []),
          okResponse 429 (Body.flat [("data", "slow down")] [])], [], []⟩).2.sent.length = 3
    ∧ (V1B.submitDreamhostCommand "dns-list_records" "k"
        ⟨[okResponse 429 (Body.flat [("data", "slow down")] []),
          okResponse 200 (Body.flat [("result", "success"), ("data", "ok")] [])], [], []⟩).1
      = (Body.flat [("result", "success"), ("data", "ok")] [], none)
    ∧ (V1B.submitDreamhostCommand "dns-list_records" "k"
        ⟨[okResponse 429 (Body.flat [("data", "slow down")] []),
          okResponse 200 (Body.flat [("result", "success"), ("data", "ok")] [])], [], []⟩).2.slept
      = [600] := by
  refine ⟨?_, ?_, ?_, ?_⟩ <;>
    simp [V2A.submitDreamhostCommand, V1B.submitDreamhostCommand, webGet, buildQuery,
      buildQueryStr, okResponse]

/-- Claim C6 fails on the code: a body that is valid JSON but omits the
`result` field decodes without error (Go leaves the field at `""`), so
`AddDNSRecord` returns `("", nil)` and `UpdateZoneFIle` returns the
partially-filled outcome with a nil error — no `DecodeError` is raised. -/
theorem C6_counterexample :
    V2A.AddDNSRecord "example.com" "2.2.2.2" "k"
      ⟨[okResponse 200 (Body.flat [("data", "record_added")] [])], [], []⟩
      = (("", none),
         ⟨[], [buildQuery (V2A.addRecordCommand "example.com" "2.2.2.2") "k"], []⟩)
    ∧ V2B.UpdateZoneFIle "add" "example.com" "2.2.2.2" "k" ""
        ⟨[okResponse 200 (Body.flat [("data", "record_added")] [])], [], []⟩
      = (({ data := "record_added", result := "" }, none),
         ⟨[], [buildQuery (V2B.zoneFileOptions "add" "example.com" "2.2.2.2" "") "k"], []⟩) := by
  constructor <;>
    simp [V2A.AddDNSRecord, V2A.submitDreamhostCommand, V2A.addRecordCommand,
      V2B.UpdateZoneFIle, V2B.submitDreamhostCommand, V2B.zoneFileOptions, webGet, buildQuery,
      unmarshalCommandResult, lookupField, okResponse, emptyCommandResult]

/-- Claim C6 amended: a valid-JSON body whose `result` field is missing
(zero-valued) is treated as a normal outcome with an empty verdict and a
nil error; decoding a flat JSON object never fails, each absent field
defaulting to `""`.  Only a body that is not valid JSON yields a decode
error. -/
theorem C6_amended_missing_result_is_normal_outcome
    (domain newIPAddress apiKey : String) (net net1 : Net)
    (fields : List (String × String)) (records : List DnsRecord)
    (hs : V2A.submitDreamhostCommand (V2A.addRecordCommand domain newIPAddress) apiKey net
      = ((Body.flat fields records, none), net1))
    (hmiss : lookupField fields "result" = "") :
    V2A.AddDNSRecord domain newIPAddress apiKey net = (("", none), net1)
    ∧ ∀ (fields2 : List (String × String)) (records2 : List DnsRecord),
        unmarshalCommandResult (Body.flat fields2 records2)
          = Except.ok { data := lookupField fields2 "data",
                        result := lookupField fields2 "result" } := by
  constructor
  · simp [V2A.AddDNSRecord, hs, unmarshalCommandResult, hmiss]
  · intro fields2 records2
    rfl

/-- Concrete instance of the amended C6: `{"data": "something"}` decodes
to an empty verdict with no error. -/
theorem C6_witness :
    V2A.AddDNSRecord "example.com" "2.2.2.2" "k"
      ⟨[okResponse 200 (Body.flat [("data", "something")] [])], [], []⟩
      = (("", none),
         ⟨[], [buildQuery (V2A.addRecordCommand "example.com" "2.2.2.2") "k"], []⟩) :=
  (C6_amended_missing_result_is_normal_outcome "example.com" "2.2.2.2" "k"
    ⟨[okResponse 200 (Body.flat [("data", "something")] [])], [], []⟩
    ⟨[], [buildQuery (V2A.addRecordCommand "example.com" "2.2.2.2") "k"], []⟩
    [("data", "something")] []
    (by simp [V2A.submitDreamhostCommand, webGet, buildQuery, okResponse])
    (by simp [lookupField])).1

/-- Claim C7 fails on the code: `WebGet` only logs a status above 299 and
returns the body with a nil error, and `submitDreamhostCommand` passes a
non-429 body straight through — an HTTP 500 response body reaches the
engine as a successful value. -/
theorem C7_counterexample :
    webGet [("key", "k")] ⟨[okResponse 500 (Body.flat [("data", "oops")] [])], [], []⟩
      = ({ body := Body.flat [("data", "oops")] [], status := 500, err := none },
         ⟨[], [[("key", "k")]], []⟩)
    ∧ (V2B.submitDreamhostCommand [("cmd", "dns-list_records")] "k"
        ⟨[okResponse 500 (Body.flat [("data", "oops")] [])], [], []⟩).1
      = (Body.flat [("data", "oops")] [], none) := by
  constructor <;> simp [webGet, V2B.submitDreamhostCommand, buildQuery, okResponse]

/-- Claim C7 amended: a transport-level success with any status other
than 429 — including statuses above 299 — returns the response body with a
nil error after a single request; high statuses are logged, not turned into
errors. -/
theorem C7_amended_high_status_body_returned_without_error
    (command : Query) (apiKey : String) (r : HttpResponse) (rest : List HttpResponse)
    (sent : List Query) (slept : List Nat)
    (h1 : r.getErr = none) (h2 : r.readErr = none) (h3 : r.status ≠ 429)
    (h4 : 299 < r.status) :
    V2B.submitDreamhostCommand command apiKey ⟨r :: rest, sent, slept⟩
      = ((r.body, none), ⟨rest, sent ++ [buildQuery command apiKey], slept⟩) := by
  rw [V2B.submitDreamhostCommand.eq_def, webGet_ok _ _ _ _ _ h1 h2]
  simp [h3]

/-- Concrete instance of the amended C7: an HTTP 500 body is returned to
the engine with a nil error. -/
theorem C7_witness :
    V2B.submitDreamhostCommand [("cmd", "dns-list_records")] "k"
      ⟨[okResponse 500 (Body.flat [("data", "internal error")] [])], [], []⟩
      = ((Body.flat [("data", "internal error")] [], none),
         ⟨[], [buildQuery [("cmd", "dns-list_records")] "k"], []⟩) :=
  C7_amended_high_status_body_returned_without_error [("cmd", "dns-list_records")] "k"
    (okResponse 500 (Body.flat [("data", "internal error")] [])) [] [] []
    rfl rfl (by decide) (by decide)

/-- Claim C8: the query of every transport invocation holds exactly the
credential under `"key"`, every entry of the command mapping under its own
key, and the fixed `format=json` directive — the count of any pair in the
built query is its count in the command plus one for the credential pair
and one for the format pair — and the query's content is invariant under
reordering of the command mapping.  For the add and remove commands the
record type entry is always the constant `("type", "A")`. -/
theorem C8_query_contents :
    (∀ (command : Query) (apiKey : String) (p : String × String),
      (buildQuery command apiKey).count p
        = (if p = ("key", apiKey) then 1 else 0) + command.count p
          + (if p = ("format", "json") then 1 else 0))
    ∧ (∀ (command1 command2 : Query) (apiKey : String), command1.Perm command2 →
        (buildQuery command1 apiKey).Perm (buildQuery command2 apiKey))
    ∧ (∀ domain ip, ("type", "A") ∈ V2A.addRecordCommand domain ip)
    ∧ (∀ domain ip, ("type", "A") ∈ V2A.deleteRecordCommand domain ip)
    ∧ (∀ command domain ip comment, command = "add" ∨ command = "del" →
        ("type", "A") ∈ V2B.zoneFileOptions command domain ip comment) := by
  refine ⟨?_, ?_, ?_, ?_, ?_⟩
  · intro command apiKey p
    by_cases h1 : p = ("key", apiKey) <;> by_cases h2 : p = ("format", "json") <;>
      simp [buildQuery, List.count_cons, List.count_append, h1, h2] <;> omega
  · intro command1 command2 apiKey hperm
    exact List.Perm.cons _ (hperm.append_right _)
  · intro domain ip
    simp [V2A.addRecordCommand]
  · intro domain ip
    simp [V2A.deleteRecordCommand]
  · intro command domain ip comment hcmd
    rcases hcmd with h | h <;> subst h <;> by_cases hc : comment = "" <;>
      simp [V2B.zoneFileOptions, hc]

/-- Concrete instance of C8: two insertion orders of the same command
mapping build queries that are permutations of one another. -/
theorem C8_witness :
    (buildQuery [("a", "1"), ("b", "2")] "k").Perm (buildQuery [("b", "2"), ("a", "1")] "k") :=
  (C8_query_contents).2.1 [("a", "1"), ("b", "2")] [("b", "2"), ("a", "1")] "k" (by decide)

/-- Claim C9: for `UpdateZoneFIle` with command `"add"` or `"del"`, an empty
comment argument leaves no `"comment"` key at all in the command options
(and hence in any sent query), while a non-empty comment is included
verbatim as the single `"comment"` entry. -/
theorem C9_comment_handling
    (command domain ipAddress apiKey comment : String) (net : Net)
    (hcmd : command = "add" ∨ command = "del") :
    (comment = "" →
      ∀ v, ("comment", v) ∉ V2B.zoneFileOptions command domain ipAddress comment)
    ∧ (comment ≠ "" →
        ("comment", comment) ∈ V2B.zoneFileOptions command domain ipAddress comment
        ∧ ∀ v, ("comment", v) ∈ V2B.zoneFileOptions command domain ipAddress comment →
            v = comment)
    ∧ (∀ q ∈ (V2B.UpdateZoneFIle command domain ipAddress apiKey comment net).2.sent,
        q ∈ net.sent ∨
          ∀ v, (("comment", v) ∈ q ↔ comment ≠ "" ∧ v = comment)) := by
  have hsent := V2B_UpdateZoneFIle_sent command domain ipAddress apiKey comment net
  refine ⟨?_, ?_, ?_⟩
  · intro hc v
    rcases hcmd with h | h <;> subst h <;> simp [V2B.zoneFileOptions, hc]
  · intro hc
    constructor
    · rcases hcmd with h | h <;> subst h <;> simp [V2B.zoneFileOptions, hc]
    · intro v hv
      rcases hcmd with h | h <;> subst h <;> simp [V2B.zoneFileOptions, hc] at hv <;>
        exact hv
  · intro q hq
    rcases hsent q hq with hmem | heq
    · exact Or.inl hmem
    · right
      subst heq
      intro v
      constructor
      · intro hv
        rcases hcmd with h | h <;> subst h <;> by_cases hc : comment = "" <;>
          simp [buildQuery, V2B.zoneFileOptions, hc] at hv <;> exact ⟨hc, hv⟩
      · rintro ⟨hc, rfl⟩
        rcases hcmd with h | h <;> subst h <;>
          simp [buildQuery, V2B.zoneFileOptions, hc]

/-- Concrete instance of C9: an empty comment leaves no comment entry; a
non-empty comment appears verbatim. -/
theorem C9_witness :
    ("comment", "c0") ∉ V2B.zoneFileOptions "add" "example.com" "2.2.2.2" ""
    ∧ ("comment", "note") ∈ V2B.zoneFileOptions "add" "example.com" "2.2.2.2" "note" :=
  ⟨(C9_comment_handling "add" "example.com" "2.2.2.2" "k" "" ⟨[], [], []⟩
      (Or.inl rfl)).1 rfl "c0",
   ((C9_comment_handling "add" "example.com" "2.2.2.2" "k" "note" ⟨[], [], []⟩
      (Or.inl rfl)).2.1 (by decide)).1⟩

/-- Claim C10: when the transport and decode of a `GetDNSRecords` call
succeed but the decoded `result` field is not `"success"` (for example a
bad API key), the function returns the empty `DnsRecords` value with a nil
error — indistinguishable from an account with no records. -/
theorem C10_nonsuccess_listing_returns_empty_without_error
    (apiKey : String) (pending : List HttpResponse) (b : Body) (net1 : Net)
    (recs : DnsRecords)
    (hs : V2B.submitDreamhostCommand V2B.listRecordsCommand apiKey ⟨pending, [], []⟩
      = ((b, none), net1))
    (hu : unmarshalDnsRecords b = Except.ok recs)
    (hr : recs.result ≠ "success") :
    V2B.GetDNSRecords apiKey ⟨pending, [], []⟩ = ((emptyDnsRecords, none), net1) := by
  simp [V2B.GetDNSRecords, hs, hu, hr]

/-- Concrete instance of C10: a rejected listing whose `data` array is not
even empty still comes back as the empty `DnsRecords` with a nil error. -/
theorem C10_witness :
    V2B.GetDNSRecords "badkey"
      ⟨[okResponse 200 (Body.flat [("result", "error"), ("data", "invalid_api_key")]
        [{ record := "www.example.com", zone := "example.com", value := "1.2.3.4",
           editable := "1", zoneType := "A", comment := "", accountId := "42" }])], [], []⟩
      = ((emptyDnsRecords, none),
         ⟨[], [buildQuery V2B.listRecordsCommand "badkey"], []⟩) :=
  C10_nonsuccess_listing_returns_empty_without_error "badkey"
    [okResponse 200 (Body.flat [("result", "error"), ("data", "invalid_api_key")]
      [{ record := "www.example.com", zone := "example.com", value := "1.2.3.4",
         editable := "1", zoneType := "A", comment := "", accountId := "42" }])]
    (Body.flat [("result", "error"), ("data", "invalid_api_key")]
      [{ record := "www.example.com", zone := "example.com", value := "1.2.3.4",
         editable := "1", zoneType := "A", comment := "", accountId := "42" }])
    ⟨[], [buildQuery V2B.listRecordsCommand "badkey"], []⟩
    { data := [{ record := "www.example.com", zone := "example.com", value := "1.2.3.4",
                 editable := "1", zoneType := "A", comment := "", accountId := "42" }],
      result := "error" }
    (by simp [V2B.submitDreamhostCommand, V2B.listRecordsCommand, webGet, buildQuery,
      okResponse])
    (by simp [unmarshalDnsRecords, lookupField])
    (by decide)

end Dreamhost
